import Mathlib

/-!
Shallow embedding of the musiclibs frontend view-state logic: the async
resource data model, the Redux selectors, the container lifecycle hooks
(modelled as functions from props to the list of dispatched actions) and the
render functions (modelled as functions from props to a small view datatype).
Each definition is translated from the corresponding source file.
-/

set_option autoImplicit false

namespace Musiclibs

/-- Status of an asynchronous request (the `async-request-status` module:
`PENDING`, `SUCCESS`, `ERROR`). -/
inductive AsyncStatus where
  | pending
  | success
  | error
deriving DecidableEq, Repr

/-- Structured error payload carried by an ERROR-status resource. -/
structure ErrorInfo where
  message : String
deriving DecidableEq, Repr

/-- A manifest's viewable description; contents are opaque to this layer,
only presence or absence drives branching, so it is modelled as a wrapper. -/
structure ManifestInfo where
  raw : String
deriving DecidableEq, Repr

/-- An async resource (`ManifestResource` / `AsyncStatusRecord` in the
source): a status plus nullable value and nullable error fields. -/
structure AsyncResource where
  status : AsyncStatus
  value : Option ManifestInfo
  error : Option ErrorInfo
deriving DecidableEq, Repr

abbrev ManifestResource := AsyncResource

/-- The spec's data-model invariant: exactly one of value/error is populated,
and only when the status is SUCCESS/ERROR respectively. -/
def AsyncResource.wellFormed (r : AsyncResource) : Prop :=
  (r.status = AsyncStatus.pending → r.value = none ∧ r.error = none) ∧
  (r.status = AsyncStatus.success → r.value ≠ none ∧ r.error = none) ∧
  (r.status = AsyncStatus.error → r.value = none ∧ r.error ≠ none)

instance (r : AsyncResource) : Decidable r.wellFormed := by
  unfold AsyncResource.wellFormed; infer_instance

/-- JavaScript truthiness of an optional string (query parameters and route
parameters): `undefined` and the empty string are falsy. -/
def jsTruthy : Option String → Bool
  | none => false
  | some s => s ≠ ""

/-- A keyed resource map (an `Immutable.Map` in the store), modelled as an
association list with unique keys; `get` returns the first matching entry. -/
abbrev RMap := List (String × AsyncResource)

/-- `Immutable.Map.get` on a possibly-undefined key: a string-keyed map holds
no entry for `undefined`, so `get(undefined)` is `undefined`. -/
def RMap.get (m : RMap) (k : Option String) : Option AsyncResource :=
  match k with
  | none => none
  | some s => (m.find? (fun p => p.1 == s)).map Prod.snd

/-- Whether the map has an entry for the key (whether a request for that key
was ever dispatched). -/
def RMap.containsKey (m : RMap) (k : String) : Bool :=
  m.any (fun p => p.1 == k)

/-- The slice of the global Redux store that the selectors read:
`state.manifests`, `state.search`, and `state.router.location`. -/
structure GlobalState where
  manifests : RMap
  search : RMap
  routerPathname : String
  routerQueryQ : Option String
deriving DecidableEq, Repr

/-- Actions dispatched by the containers: `ManifestActions.request({id})`,
`Search.request({query})`, and the router's `replaceState(null, pathname,
query?)`. -/
inductive Action where
  | manifestRequest (id : String)
  | searchRequest (query : String)
  | replaceState (pathname : String) (q : Option String)
deriving DecidableEq, Repr

/- ### Selectors -/

/-- The `LandingPage` selector: `manifests.get(props.params.manifestId)`,
returned as the `manifestRequest` prop. -/
def selector (state : GlobalState) (paramsManifestId : Option String) :
    Option AsyncResource :=
  RMap.get state.manifests paramsManifestId

/-- `getQuery`: `state.router.location.query.q`. -/
def getQuery (state : GlobalState) : Option String :=
  state.routerQueryQ

/-- `getSearchResults`: `state.search.get(getQuery(state))`. -/
def getSearchResults (state : GlobalState) : Option AsyncResource :=
  RMap.get state.search (getQuery state)

/-- The props object produced by the search container's `getState` selector. -/
structure SearchProps where
  query : Option String
  results : Option AsyncResource
  pathname : String
deriving DecidableEq, Repr

/-- `getState`: combines query, per-query results and pathname into props. -/
def getState (state : GlobalState) : SearchProps :=
  { query := getQuery state
    results := getSearchResults state
    pathname := state.routerPathname }

/- ### LandingPage lifecycle (dispatch behaviour) -/

/-- `LandingPage._loadManifest(id)`: dispatches a single request action. -/
def LandingPage.loadManifest (id : String) : List Action :=
  [Action.manifestRequest id]

/-- The instance field `this.manifestRequest` read by `componentDidMount`.
No method of the class ever assigns it, so it is always `undefined`; it is
distinct from the prop `this.props.manifestRequest`. -/
def LandingPage.instanceManifestRequest : Option AsyncResource :=
  none

/-- `LandingPage.componentDidMount`: dispatches when `params.manifestId` is
truthy and `this.manifestRequest` (the never-assigned instance field, not the
`manifestRequest` prop) is falsy. The prop is passed here but, as in the
source, not consulted. -/
def LandingPage.componentDidMount (manifestId : Option String)
    (_propsManifestRequest : Option AsyncResource) : List Action :=
  if jsTruthy manifestId && LandingPage.instanceManifestRequest.isNone then
    LandingPage.loadManifest (manifestId.getD "")
  else
    []

/-- `LandingPage.componentWillReceiveProps`: dispatches when the incoming
`params.manifestId` is truthy and differs (`!==`) from the current one. -/
def LandingPage.componentWillReceiveProps (currentId nextId : Option String) :
    List Action :=
  if jsTruthy nextId && nextId != currentId then
    LandingPage.loadManifest (nextId.getD "")
  else
    []

/- ### SearchPageContainer lifecycle (dispatch behaviour) -/

/-- `SearchPageContainer._loadQuery`: a falsy query replaces the location
with the bare pathname and returns; a truthy query first replaces the
location with `{q: query}` and then dispatches the search request. -/
def SearchPageContainer.loadQuery (pathname : String) (query : Option String) :
    List Action :=
  if !(jsTruthy query) then
    [Action.replaceState pathname none]
  else
    [Action.replaceState pathname query,
     Action.searchRequest (query.getD "")]

/-- `SearchPageContainer.componentDidMount`: calls `_loadQuery` with the
current query prop; the `results` prop is not consulted. -/
def SearchPageContainer.componentDidMount (pathname : String)
    (query : Option String) (_results : Option AsyncResource) : List Action :=
  SearchPageContainer.loadQuery pathname query

/- ### ManifestDisplay rendering -/

/-- The three render outputs of `ManifestDisplay.render`: the error alert
(carrying `req.error`), the loading placeholder, and the manifest viewer
(carrying `req.value`). -/
inductive ManifestDisplayView where
  | errorAlert (e : Option ErrorInfo)
  | loading
  | viewer (info : ManifestInfo)
deriving DecidableEq, Repr

/-- `ManifestDisplay.render`:
first `if (req && req.status === ERROR)` returns the error alert;
then `if (!req || !req.value)` returns the loading placeholder;
otherwise returns the viewer populated with `req.value`. -/
def ManifestDisplay.render (req : Option AsyncResource) : ManifestDisplayView :=
  match req with
  | none => ManifestDisplayView.loading
  | some r =>
    if r.status = AsyncStatus.error then
      ManifestDisplayView.errorAlert r.error
    else
      match r.value with
      | none => ManifestDisplayView.loading
      | some v => ManifestDisplayView.viewer v

/- ### LandingPage rendering -/

/-- The right-hand panel chosen by `LandingPage._renderManifest`: either a
`ManifestDisplay` (with the `manifestRequest` and `manifestId` props) or the
click-helper placeholder. -/
inductive RightPanel where
  | display (req : Option AsyncResource) (manifestId : String)
  | clickHelper
deriving DecidableEq, Repr

/-- The result area built by `LandingPage._renderResults`: whether the
search-results container is rendered, plus the right panel. -/
structure ResultsView where
  searchPanel : Bool
  rightPanel : RightPanel
deriving DecidableEq, Repr

/-- The `children` chosen by `LandingPage.render`: the landing layout (with
or without the recent-items cascade section) or the results layout. -/
inductive LandingChildren where
  | landing (showCascade : Bool)
  | results (v : ResultsView)
deriving DecidableEq, Repr

/-- `LandingPage._renderLanding`: the cascade section is rendered iff
`!location.query.q && !location.query.m`. -/
def LandingPage.renderLanding (q m : Option String) : LandingChildren :=
  LandingChildren.landing (!(jsTruthy q) && !(jsTruthy m))

/-- `LandingPage._renderManifest`: a truthy `params.manifestId` yields the
`ManifestDisplay`, otherwise the click helper. -/
def LandingPage.renderManifest (manifestId : Option String)
    (manifestRequest : Option AsyncResource) : RightPanel :=
  if jsTruthy manifestId then
    RightPanel.display manifestRequest (manifestId.getD "")
  else
    RightPanel.clickHelper

/-- `LandingPage._renderResults`: the search-results container is rendered
iff `location.query.q || location.query.m`; the right panel is
`_renderManifest()`. -/
def LandingPage.renderResults (q m manifestId : Option String)
    (manifestRequest : Option AsyncResource) : LandingChildren :=
  LandingChildren.results
    { searchPanel := jsTruthy q || jsTruthy m
      rightPanel := LandingPage.renderManifest manifestId manifestRequest }

/-- `LandingPage.render`: `if (query.q || query.m || params.manifestId)` the
children are `_renderResults()`, otherwise `_renderLanding()`. -/
def LandingPage.render (q m manifestId : Option String)
    (manifestRequest : Option AsyncResource) : LandingChildren :=
  if jsTruthy q || jsTruthy m || jsTruthy manifestId then
    LandingPage.renderResults q m manifestId manifestRequest
  else
    LandingPage.renderLanding q m

/- ### Presentational components (cascade label, thumbnail) -/

/-- The two render outputs of `ManifestCascadeItemLabel`. -/
inductive LabelInfo where
  | manifestThings
  | loadingPlaceholder
deriving DecidableEq, Repr

/-- `ManifestCascadeItemLabel({manifest})`: a truthy manifest renders the
label heading, a falsy one renders the centred `Loading...` placeholder. -/
def ManifestCascadeItemLabel (manifest : Option ManifestInfo) : LabelInfo :=
  match manifest with
  | some _ => LabelInfo.manifestThings
  | none => LabelInfo.loadingPlaceholder

/-- An IIIF image structure passed as a non-string thumbnail `src`; its
contents are only inspected by `getImageUrlWithMaxWidth`, so it is opaque. -/
structure ImageObj where
  raw : String
deriving DecidableEq, Repr

/-- The object returned by `getImageUrlWithMaxWidth` on success. -/
structure ResolvedImage where
  url : String
deriving DecidableEq, Repr

/-- A JavaScript value passed as the `Thumbnail` `src` prop: a string, a
truthy non-string object, or a falsy value (`null`/`undefined`). -/
inductive ThumbSource where
  | str (s : String)
  | obj (o : ImageObj)
  | nullish
deriving DecidableEq, Repr

def MAX_THUMBNAIL_WIDTH : Nat := 100

/-- The rendered thumbnail: the container div, with `img` carrying the `img`
element's src when one is rendered (`imgSrc &&` — a falsy `imgSrc`, i.e.
`undefined` or the empty string, renders no image). -/
structure ThumbnailView where
  img : Option String
deriving DecidableEq, Repr

/-- `Thumbnail({src})`, parameterised by `getImageUrlWithMaxWidth` (a utility
from another module): a string src is used directly; a truthy non-string src
is resolved, and `imgSrc` is set only when resolution succeeds; otherwise
`imgSrc` stays `undefined`. The container is returned in every case. -/
def Thumbnail (getImageUrlWithMaxWidth : ImageObj → Nat → Option ResolvedImage)
    (src : ThumbSource) : ThumbnailView :=
  let imgSrc : Option String :=
    match src with
    | ThumbSource.str s => some s
    | ThumbSource.obj o =>
      (getImageUrlWithMaxWidth o MAX_THUMBNAIL_WIDTH).map ResolvedImage.url
    | ThumbSource.nullish => none
  { img :=
      match imgSrc with
      | some s => if s ≠ "" then some s else none
      | none => none }

/-! ## Theorems -/

/-- Claim C1 (code bug): on mount the LandingPage dispatches a load request even
when the resource map already holds a resource for the manifest id — the
guard reads the never-assigned instance field instead of the prop, so the
"only when no corresponding resource exists" half of the claim fails; the
search container likewise re-dispatches on mount despite existing results. -/
theorem c1_mount_dispatches_despite_existing_resource :
    LandingPage.componentDidMount (some "42")
      (some { status := AsyncStatus.success
              value := some { raw := "manifest 42" }
              error := none })
      = [Action.manifestRequest "42"] ∧
    SearchPageContainer.componentDidMount "/" (some "cat")
      (some { status := AsyncStatus.success
              value := some { raw := "results for cat" }
              error := none })
      = [Action.replaceState "/" (some "cat"), Action.searchRequest "cat"] :=
  ⟨by decide, by decide⟩

/-- Claim C2: on a route-parameter update, exactly one load request for the new
manifest id is dispatched when the new id is truthy and differs from the
previous one; none is dispatched when the id is unchanged or the new id is
absent (including a present-to-absent transition). -/
theorem c2_update_dispatch_iff_id_changed (currentId nextId : Option String) :
    (jsTruthy nextId = true → nextId ≠ currentId →
      LandingPage.componentWillReceiveProps currentId nextId
        = [Action.manifestRequest (nextId.getD "")]) ∧
    (nextId = currentId →
      LandingPage.componentWillReceiveProps currentId nextId = []) ∧
    (jsTruthy nextId = false →
      LandingPage.componentWillReceiveProps currentId nextId = []) := by
  refine ⟨fun h1 h2 => ?_, fun h => ?_, fun h => ?_⟩
  · simp [LandingPage.componentWillReceiveProps, LandingPage.loadManifest,
      h1, bne_iff_ne, h2]
  · subst h
    simp [LandingPage.componentWillReceiveProps]
  · simp [LandingPage.componentWillReceiveProps, h]

theorem c2_update_dispatch_witness :
    LandingPage.componentWillReceiveProps (some "41") (some "42")
      = [Action.manifestRequest "42"] :=
  (c2_update_dispatch_iff_id_changed (some "41") (some "42")).1
    (by decide) (by decide)

/-- Claim C5: a falsy (absent or empty) query dispatches no search request and
replaces the location with the bare pathname; a truthy query replaces the
location with the query normalized into the URL and only then dispatches the
search request. -/
theorem c5_blank_query_normalizes_route (pathname : String)
    (query : Option String) :
    (jsTruthy query = false →
      SearchPageContainer.loadQuery pathname query
        = [Action.replaceState pathname none] ∧
      ∀ q, Action.searchRequest q ∉ SearchPageContainer.loadQuery pathname query) ∧
    (jsTruthy query = true →
      SearchPageContainer.loadQuery pathname query
        = [Action.replaceState pathname query,
           Action.searchRequest (query.getD "")]) := by
  refine ⟨fun h => ⟨?_, fun q => ?_⟩, fun h => ?_⟩
  · simp [SearchPageContainer.loadQuery, h]
  · simp [SearchPageContainer.loadQuery, h]
  · simp [SearchPageContainer.loadQuery, h]

theorem c5_blank_query_witness :
    SearchPageContainer.loadQuery "/search" none
      = [Action.replaceState "/search" none] :=
  ((c5_blank_query_normalizes_route "/search" none).1 rfl).1

/-- Claim C8: ManifestDisplay rendering is deterministic — equal resource inputs
take the same render branch (the source render reads only the
`manifestRequest` prop, so agreement on the resource decides the branch). -/
theorem c8_render_deterministic (r1 r2 : Option AsyncResource) (h : r1 = r2) :
    ManifestDisplay.render r1 = ManifestDisplay.render r2 := by
  rw [h]

theorem c8_render_deterministic_witness :
    ManifestDisplay.render none = ManifestDisplay.render none :=
  c8_render_deterministic none none rfl

/-- Claim C10: an absent resource, or one whose status is not ERROR and whose value
is null (including SUCCESS with a null value), renders the loading
placeholder; the viewer branch is taken only when the resource's value is
actually present, so the viewer never receives a null value. -/
theorem c10_no_null_value_to_viewer (req : Option AsyncResource) :
    (req = none → ManifestDisplay.render req = ManifestDisplayView.loading) ∧
    (∀ r, req = some r → r.status ≠ AsyncStatus.error → r.value = none →
      ManifestDisplay.render req = ManifestDisplayView.loading) ∧
    (∀ r v, req = some r →
      ManifestDisplay.render req = ManifestDisplayView.viewer v →
      r.value = some v) := by
  refine ⟨fun h => ?_, fun r hr hs hv => ?_, fun r v hr h => ?_⟩
  · subst h; rfl
  · subst hr
    simp [ManifestDisplay.render, hs, hv]
  · subst hr
    by_cases hs : r.status = AsyncStatus.error
    · simp [ManifestDisplay.render, hs] at h
    · cases hv : r.value with
      | none => simp [ManifestDisplay.render, hs, hv] at h
      | some w => simp [ManifestDisplay.render, hs, hv] at h; rw [h]

theorem c10_no_null_value_to_viewer_witness :
    ManifestDisplay.render
      (some { status := AsyncStatus.success, value := none, error := none })
      = ManifestDisplayView.loading :=
  (c10_no_null_value_to_viewer _).2.1 _ rfl (by decide) rfl

/-- Claim C3: over the four resource states, each one takes exactly one render
path: absent or PENDING renders the loading placeholder, ERROR renders the
error alert carrying the resource's error payload, and SUCCESS (whose value
is present, by the data-model invariant) renders the viewer on that value. -/
theorem c3_render_three_way_total (req : Option AsyncResource)
    (h : ∀ r, req = some r → r.wellFormed) :
    (req = none → ManifestDisplay.render req = ManifestDisplayView.loading) ∧
    (∀ r, req = some r → r.status = AsyncStatus.pending →
      ManifestDisplay.render req = ManifestDisplayView.loading) ∧
    (∀ r, req = some r → r.status = AsyncStatus.error →
      ManifestDisplay.render req = ManifestDisplayView.errorAlert r.error) ∧
    (∀ r, req = some r → r.status = AsyncStatus.success →
      ∃ v, r.value = some v ∧
        ManifestDisplay.render req = ManifestDisplayView.viewer v) := by
  refine ⟨fun hn => ?_, fun r hr hs => ?_, fun r hr hs => ?_, fun r hr hs => ?_⟩
  · subst hn; rfl
  · subst hr
    have hv : r.value = none := ((h r rfl).1 hs).1
    have hne : r.status ≠ AsyncStatus.error := by rw [hs]; intro hc; cases hc
    simp [ManifestDisplay.render, hne, hv]
  · subst hr
    simp [ManifestDisplay.render, hs]
  · subst hr
    obtain ⟨v, hv⟩ := Option.ne_none_iff_exists'.mp ((h r rfl).2.1 hs).1
    have hne : r.status ≠ AsyncStatus.error := by rw [hs]; intro hc; cases hc
    exact ⟨v, hv, by simp [ManifestDisplay.render, hne, hv]⟩

theorem c3_render_three_way_witness :
    ManifestDisplay.render
      (some { status := AsyncStatus.error
              value := none
              error := some { message := "not found" } })
      = ManifestDisplayView.errorAlert (some { message := "not found" }) :=
  (c3_render_three_way_total _
    (by intro r hr; injection hr with hr; subst hr; decide)).2.2.1 _ rfl rfl

/-- Claim C4: the landing render picks exactly one of three layouts: the landing
layout with the recent-items cascade iff `q`, `m` and the manifest id are all
absent; the split layout (search-results panel shown) when `q` or `m` is
truthy; the detail-only layout (no search-results panel, ManifestDisplay on
the right) when the manifest id is truthy but `q` and `m` are absent. -/
theorem c4_layout_three_way (q m manifestId : Option String)
    (req : Option AsyncResource) :
    (LandingPage.render q m manifestId req = LandingChildren.landing true ↔
      (jsTruthy q = false ∧ jsTruthy m = false ∧ jsTruthy manifestId = false)) ∧
    (jsTruthy q = true ∨ jsTruthy m = true →
      LandingPage.render q m manifestId req = LandingChildren.results
        { searchPanel := true
          rightPanel := LandingPage.renderManifest manifestId req }) ∧
    (jsTruthy manifestId = true → jsTruthy q = false → jsTruthy m = false →
      LandingPage.render q m manifestId req = LandingChildren.results
        { searchPanel := false
          rightPanel := RightPanel.display req (manifestId.getD "") }) := by
  cases hq : jsTruthy q <;> cases hm : jsTruthy m <;>
    cases hid : jsTruthy manifestId <;>
    simp [LandingPage.render, LandingPage.renderResults,
      LandingPage.renderLanding, LandingPage.renderManifest, hq, hm, hid]

theorem c4_layout_three_way_witness :
    LandingPage.render none none none none = LandingChildren.landing true :=
  (c4_layout_three_way none none none none).1.mpr ⟨rfl, rfl, rfl⟩

/-- Lookup in an association list with unique keys finds exactly the stored
entry. -/
theorem RMap.find_of_mem_nodup {m : RMap} {k : String} {r : AsyncResource}
    (hmem : (k, r) ∈ m) (hnd : (m.map Prod.fst).Nodup) :
    m.find? (fun p => p.1 == k) = some (k, r) := by
  induction m with
  | nil => cases hmem
  | cons hd tl ih =>
    rw [List.map_cons, List.nodup_cons] at hnd
    rcases List.mem_cons.mp hmem with hh | hh
    · subst hh
      simp [List.find?]
    · have hne : hd.1 ≠ k := fun he =>
        hnd.1 (he ▸ List.mem_map_of_mem Prod.fst hh)
      have hpf : (hd.1 == k) = false := by
        simp [hne]
      rw [List.find?, hpf]
      exact ih hh hnd.2

/-- Claim C6: for every state and lookup key, the selector yields `undefined`
exactly when the resource map holds no entry for that key, and otherwise
yields the map's entry for that key — for both the manifest selector and the
search-results selector. -/
theorem c6_selector_undefined_iff_no_entry (state : GlobalState) (k : String)
    (hm : (state.manifests.map Prod.fst).Nodup)
    (hs : (state.search.map Prod.fst).Nodup) :
    (selector state (some k) = none ↔
      RMap.containsKey state.manifests k = false) ∧
    (∀ r, (k, r) ∈ state.manifests → selector state (some k) = some r) ∧
    (getQuery state = some k →
      ((getSearchResults state = none ↔
         RMap.containsKey state.search k = false) ∧
       (∀ r, (k, r) ∈ state.search → getSearchResults state = some r))) := by
  refine ⟨?_, fun r hr => ?_, fun hq => ⟨?_, fun r hr => ?_⟩⟩
  · simp [selector, RMap.get, RMap.containsKey, List.find?_eq_none,
      List.any_eq_false]
  · simp [selector, RMap.get, RMap.find_of_mem_nodup hr hm]
  · simp [getSearchResults, RMap.get, RMap.containsKey, hq,
      List.find?_eq_none, List.any_eq_false]
  · simp [getSearchResults, RMap.get, hq, RMap.find_of_mem_nodup hr hs]

theorem c6_selector_witness :
    selector
      { manifests :=
          [("42", { status := AsyncStatus.pending, value := none, error := none })]
        search := []
        routerPathname := "/"
        routerQueryQ := none }
      (some "42")
      = some { status := AsyncStatus.pending, value := none, error := none } :=
  (c6_selector_undefined_iff_no_entry _ "42" (by simp) (by simp)).2.1 _
    (List.mem_singleton.mpr rfl)

/-- Claim C7: the selectors are deterministic functions of their declared inputs —
two states and prop sets that agree on the lookup key's map entry, the query,
the per-query results entry and the pathname produce equal selector outputs.
(The embedding makes them pure by construction: they emit no actions and
return only derived values.) -/
theorem c7_selector_deterministic (s1 s2 : GlobalState) (p1 p2 : Option String)
    (hman : RMap.get s1.manifests p1 = RMap.get s2.manifests p2)
    (hq : getQuery s1 = getQuery s2)
    (hres : RMap.get s1.search (getQuery s1) = RMap.get s2.search (getQuery s2))
    (hpath : s1.routerPathname = s2.routerPathname) :
    selector s1 p1 = selector s2 p2 ∧ getState s1 = getState s2 := by
  constructor
  · exact hman
  · simp only [getState, getSearchResults]
    rw [hq, hpath, hq] at *
    simp [hres]

theorem c7_selector_witness :
    selector
        { manifests :=
            [("a", { status := AsyncStatus.pending, value := none, error := none })]
          search := [], routerPathname := "/", routerQueryQ := none } none
      = selector
        { manifests := [], search := [], routerPathname := "/"
          routerQueryQ := none } none ∧
    getState
        { manifests :=
            [("a", { status := AsyncStatus.pending, value := none, error := none })]
          search := [], routerPathname := "/", routerQueryQ := none }
      = getState
        { manifests := [], search := [], routerPathname := "/"
          routerQueryQ := none } :=
  c7_selector_deterministic _ _ none none rfl rfl rfl rfl

/-- Claim C9: missing or partial content renders placeholders instead of failing:
an absent manifest renders the `Loading...` label (a present one renders the
heading), and a non-string thumbnail source that resolves to no image URL
renders the container with no `img` element; both components are total. -/
theorem c9_placeholders_never_fail
    (getImageUrlWithMaxWidth : ImageObj → Nat → Option ResolvedImage)
    (o : ImageObj) :
    (ManifestCascadeItemLabel none = LabelInfo.loadingPlaceholder) ∧
    (∀ mf, ManifestCascadeItemLabel (some mf) = LabelInfo.manifestThings) ∧
    (getImageUrlWithMaxWidth o MAX_THUMBNAIL_WIDTH = none →
      Thumbnail getImageUrlWithMaxWidth (ThumbSource.obj o) = { img := none }) ∧
    (Thumbnail getImageUrlWithMaxWidth ThumbSource.nullish = { img := none }) := by
  refine ⟨rfl, fun mf => rfl, fun h => ?_, rfl⟩
  simp [Thumbnail, h]

theorem c9_placeholders_witness :
    Thumbnail (fun _ _ => none) (ThumbSource.obj { raw := "svc" })
      = { img := none } :=
  (c9_placeholders_never_fail (fun _ _ => none) { raw := "svc" }).2.2.1 rfl

end Musiclibs
